import Mathlib

set_option maxRecDepth 10000

/-!
# Verification of `tor-stream` (`src/lib.rs`)

A shallow embedding of the `tor-stream` crate: a thin wrapper around a
TCP socket that establishes the connection through a SOCKS5 proxy.

The crate owns two pieces of logic (`src/lib.rs`):
  * the process-wide default proxy address `TOR_PROXY = 127.0.0.1:9050`;
  * the `TorStream` newtype over `TcpStream`, whose `connect`,
    `connect_with_address`, `get_ref`, `get_mut`, `unwrap`, `read`,
    `write` and `flush` all delegate to the external `socks` crate or
    to the owned socket.

The external collaborators (the OS socket and the `socks` crate's
`Socks5Stream::connect`) are not part of this repository; they are
embedded abstractly: the socket as an opaque state type `σ` together
with a `SocketModel σ` giving the behaviour of `read`/`write`/`flush`,
and the SOCKS engine as an explicit function argument
`engine : SocketAddr → TargetAddr → Except IOError (Socks5Stream σ)`.
Where a claim depends on the engine's internal behaviour, a
spec-modelled engine `specSocksConnect` is supplied (see its doc
comment).
-/

/-- Error kinds of `std::io::ErrorKind` used by this development. -/
inductive IOErrorKind where
  | connectionRefused
  | connectionReset
  | timedOut
  | invalidInput
  | invalidData
  | other
deriving DecidableEq, Repr

/-- Embedding of `std::io::Error`: a kind plus a message. -/
structure IOError where
  kind : IOErrorKind
  msg : String
deriving DecidableEq, Repr

/-- Embedding of `std::net::Ipv4Addr`: four octets (each a `u8`,
modelled as `Nat` below 256). -/
structure Ipv4Addr where
  a : Nat
  b : Nat
  c : Nat
  d : Nat
deriving DecidableEq, Repr

/-- `Ipv4Addr::LOCALHOST`, i.e. `127.0.0.1`. -/
def Ipv4Addr.LOCALHOST : Ipv4Addr := ⟨127, 0, 0, 1⟩

/-- Embedding of `std::net::SocketAddrV4`: an IPv4 address and a `u16`
port (modelled as `Nat` below 65536). -/
structure SocketAddrV4 where
  ip : Ipv4Addr
  port : Nat
deriving DecidableEq, Repr

/-- Embedding of `std::net::SocketAddrV6` (only the fields this crate
could observe: eight 16-bit segments and a port). -/
structure SocketAddrV6 where
  segments : List Nat
  port : Nat
deriving DecidableEq, Repr

/-- Embedding of `std::net::SocketAddr`. -/
inductive SocketAddr where
  | v4 : SocketAddrV4 → SocketAddr
  | v6 : SocketAddrV6 → SocketAddr
deriving DecidableEq, Repr

/-- `src/lib.rs` (lazy_static block):
`pub static ref TOR_PROXY: SocketAddr =
  SocketAddr::V4(SocketAddrV4::new(Ipv4Addr::LOCALHOST, 9050));`
`lazy_static` computes the value once on first access and never
mutates it afterwards; as a pure Lean definition every read denotes
this single value. -/
def TOR_PROXY : SocketAddr :=
  SocketAddr.v4 ⟨Ipv4Addr.LOCALHOST, 9050⟩

/-- Embedding of `socks::TargetAddr` (the result of `ToTargetAddr`):
either a resolved socket address or an unresolved domain name (kept as
raw bytes, resolved by the proxy) with a port. -/
inductive TargetAddr where
  | ip : SocketAddr → TargetAddr
  | domain : List Nat → Nat → TargetAddr
deriving DecidableEq, Repr

/-- Embedding of `socks::Socks5Stream`: after a successful handshake it
owns the connected socket (state type `σ`). -/
structure Socks5Stream (σ : Type) where
  socket : σ

/-- `Socks5Stream::into_inner` returns the owned socket. -/
def Socks5Stream.into_inner {σ : Type} (s : Socks5Stream σ) : σ :=
  s.socket

/-- `src/lib.rs`: `pub struct TorStream(TcpStream);` — a newtype owning
exactly one socket and nothing else. -/
structure TorStream (σ : Type) where
  inner : σ

/-- `src/lib.rs`, `TorStream::connect`:
`Socks5Stream::connect(TOR_PROXY.deref(), destination)
   .map(|stream| TorStream(stream.into_inner()))`.
The external engine `Socks5Stream::connect` is passed explicitly. -/
def TorStream.connect {σ : Type}
    (engine : SocketAddr → TargetAddr → Except IOError (Socks5Stream σ))
    (destination : TargetAddr) : Except IOError (TorStream σ) :=
  (engine TOR_PROXY destination).map (fun stream => TorStream.mk stream.into_inner)

/-- `src/lib.rs`, `TorStream::connect_with_address`:
`Socks5Stream::connect(tor_proxy, destination)
   .map(|stream| TorStream(stream.into_inner()))`. -/
def TorStream.connect_with_address {σ : Type}
    (engine : SocketAddr → TargetAddr → Except IOError (Socks5Stream σ))
    (tor_proxy : SocketAddr) (destination : TargetAddr) :
    Except IOError (TorStream σ) :=
  (engine tor_proxy destination).map (fun stream => TorStream.mk stream.into_inner)

/-- `src/lib.rs`, `TorStream::get_ref`: `&self.0`. -/
def TorStream.get_ref {σ : Type} (t : TorStream σ) : σ :=
  t.inner

/-- `src/lib.rs`, `TorStream::get_mut`: `&mut self.0`. A Rust mutable
borrow is embedded as a lens: the current value of the field together
with the function writing a new value back into the wrapper. -/
def TorStream.get_mut {σ : Type} (t : TorStream σ) :
    σ × (σ → TorStream σ) :=
  (t.inner, fun s => TorStream.mk s)

/-- `src/lib.rs`, `TorStream::unwrap`: `self.0` — consumes the wrapper
and hands back the owned socket. -/
def TorStream.unwrap {σ : Type} (t : TorStream σ) : σ :=
  t.inner

/-- Abstract behaviour of the OS socket (`std::net::TcpStream` and its
`Read`/`Write` impls): each operation takes the socket state and
returns the next state and the operation's result.
`readFn s n` models `read` into a buffer of capacity `n`, returning the
bytes placed in the buffer (the Rust return value is their count);
`writeFn s data` models `write`, returning how many bytes were
accepted; `flushFn` models `flush`. -/
structure SocketModel (σ : Type) where
  readFn : σ → Nat → σ × Except IOError (List Nat)
  writeFn : σ → List Nat → σ × Except IOError Nat
  flushFn : σ → σ × Except IOError Unit

/-- `src/lib.rs`, `impl Read for TorStream`:
`fn read(&mut self, buf: &mut [u8]) -> io::Result<usize> { self.0.read(buf) }`. -/
def TorStream.read {σ : Type} (M : SocketModel σ) (t : TorStream σ)
    (bufLen : Nat) : TorStream σ × Except IOError (List Nat) :=
  let r := M.readFn t.inner bufLen
  (TorStream.mk r.1, r.2)

/-- `src/lib.rs`, `impl Write for TorStream`, `write`:
`self.0.write(buf)`. -/
def TorStream.write {σ : Type} (M : SocketModel σ) (t : TorStream σ)
    (buf : List Nat) : TorStream σ × Except IOError Nat :=
  let r := M.writeFn t.inner buf
  (TorStream.mk r.1, r.2)

/-- `src/lib.rs`, `impl Write for TorStream`, `flush`:
`self.0.flush()`. -/
def TorStream.flush {σ : Type} (M : SocketModel σ) (t : TorStream σ) :
    TorStream σ × Except IOError Unit :=
  let r := M.flushFn t.inner
  (TorStream.mk r.1, r.2)

/-- A single stream operation, used to compare runs through the
wrapper with runs on the raw socket. -/
inductive SockOp where
  | read : Nat → SockOp
  | write : List Nat → SockOp
  | flush : SockOp
deriving DecidableEq, Repr

instance {ε α : Type} [DecidableEq ε] [DecidableEq α] :
    DecidableEq (Except ε α) := fun x y =>
  match x, y with
  | Except.ok a, Except.ok b =>
    if h : a = b then isTrue (by rw [h]) else
      isFalse (fun hc => h (by cases hc; rfl))
  | Except.ok _, Except.error _ => isFalse (fun hc => Except.noConfusion hc)
  | Except.error _, Except.ok _ => isFalse (fun hc => Except.noConfusion hc)
  | Except.error a, Except.error b =>
    if h : a = b then isTrue (by rw [h]) else
      isFalse (fun hc => h (by cases hc; rfl))

/-- The observable outcome of one stream operation. -/
inductive OpResult where
  | readRes : Except IOError (List Nat) → OpResult
  | writeRes : Except IOError Nat → OpResult
  | flushRes : Except IOError Unit → OpResult
deriving DecidableEq, Repr

/-- Run a sequence of operations directly on the raw socket. -/
def runRaw {σ : Type} (M : SocketModel σ) : σ → List SockOp → σ × List OpResult
  | s, [] => (s, [])
  | s, SockOp.read n :: ops =>
    let r := M.readFn s n
    let rest := runRaw M r.1 ops
    (rest.1, OpResult.readRes r.2 :: rest.2)
  | s, SockOp.write data :: ops =>
    let r := M.writeFn s data
    let rest := runRaw M r.1 ops
    (rest.1, OpResult.writeRes r.2 :: rest.2)
  | s, SockOp.flush :: ops =>
    let r := M.flushFn s
    let rest := runRaw M r.1 ops
    (rest.1, OpResult.flushRes r.2 :: rest.2)

/-- Run the same sequence of operations through the `TorStream`
wrapper (`impl Read`/`impl Write` of `src/lib.rs`). -/
def runWrapped {σ : Type} (M : SocketModel σ) :
    TorStream σ → List SockOp → TorStream σ × List OpResult
  | t, [] => (t, [])
  | t, SockOp.read n :: ops =>
    let r := TorStream.read M t n
    let rest := runWrapped M r.1 ops
    (rest.1, OpResult.readRes r.2 :: rest.2)
  | t, SockOp.write data :: ops =>
    let r := TorStream.write M t data
    let rest := runWrapped M r.1 ops
    (rest.1, OpResult.writeRes r.2 :: rest.2)
  | t, SockOp.flush :: ops =>
    let r := TorStream.flush M t
    let rest := runWrapped M r.1 ops
    (rest.1, OpResult.flushRes r.2 :: rest.2)

/-- SOCKS5 wire encoding of a `u16` port: two bytes, big-endian. -/
def portBytes (port : Nat) : List Nat :=
  [port / 256 % 256, port % 256]

/-- Modelled from the spec: the SOCKS5 destination-address wire
encoding performed inside the external `socks` crate, which is not
part of this repository (only its caller `src/lib.rs` is).
Spec section 4.2: the CONNECT request carries the destination host and
port "encoded per SOCKS5 addressing rules (domain-name encoding is
used for non-IP hosts)"; the domain-name form carries a one-byte
length, so "host string ≤ 255 bytes" is required and a longer host is
an encoding failure (spec section 7: "destination host/port could not
be encoded into the SOCKS5 wire format (e.g., hostname exceeds the
255-byte limit)"), surfaced as an invalid-input I/O error. -/
def encodeTarget : TargetAddr → Except IOError (List Nat)
  | TargetAddr.ip (SocketAddr.v4 a) =>
      Except.ok ([1, a.ip.a, a.ip.b, a.ip.c, a.ip.d] ++ portBytes a.port)
  | TargetAddr.ip (SocketAddr.v6 a) =>
      Except.ok
        ([4] ++ (a.segments.map (fun s => [s / 256 % 256, s % 256])).flatten
          ++ portBytes a.port)
  | TargetAddr.domain host port =>
      if host.length > 255 then
        Except.error ⟨IOErrorKind.invalidInput, "domain name too long"⟩
      else
        Except.ok ([3, host.length] ++ host ++ portBytes port)

/-- The network environment seen by one connection attempt:
`listening a` says whether some process accepts TCP connections at
address `a`; `handshake proxy dest` is the outcome of the wire-level
SOCKS5 negotiation once the TCP connection to the proxy is up —
either the tunneled socket or the protocol engine's error. -/
structure NetEnv (σ : Type) where
  listening : SocketAddr → Bool
  handshake : SocketAddr → TargetAddr → Except IOError σ

/-- Modelled from the spec: the external SOCKS engine
`socks::Socks5Stream::connect` (the `socks` crate is not part of this
repository; `src/lib.rs` only calls it). Per spec sections 4.2, 7
and 8 it
(a) encodes the destination into the SOCKS5 wire format, rejecting it
"before any network I/O occurs" when encoding fails;
(b) opens a TCP connection to the proxy — "connecting when no process
listens on the proxy address yields the connection-refused error
kind";
(c) performs the SOCKS5 negotiation, returning either the connected
socket or the protocol engine's error, "not reinterpreted". -/
def specSocksConnect {σ : Type} (env : NetEnv σ)
    (proxy : SocketAddr) (dest : TargetAddr) :
    Except IOError (Socks5Stream σ) :=
  match encodeTarget dest with
  | Except.error e => Except.error e
  | Except.ok _ =>
    if env.listening proxy then
      (env.handshake proxy dest).map Socks5Stream.mk
    else
      Except.error ⟨IOErrorKind.connectionRefused, "Connection refused"⟩

/-- A concrete network environment for exercising the theorems below:
no address has a listening process. The socket state type is `Bool`,
recording whether the SOCKS5 handshake completed on the socket. -/
def deadEnv : NetEnv Bool :=
  ⟨fun _ => false, fun _ _ => Except.ok true⟩

/-- A concrete network environment where every address listens and
every SOCKS5 negotiation succeeds, producing a handshake-completed
socket. -/
def liveEnv : NetEnv Bool :=
  ⟨fun _ => true, fun _ _ => Except.ok true⟩

/-- A destination host of exactly 255 bytes (the byte 97, `a`,
repeated). -/
def host255 : List Nat := List.replicate 255 97

/-- A destination host of exactly 256 bytes. -/
def host256 : List Nat := List.replicate 256 97

/-- C1: the wrapper's `read`, `write` and `flush` return exactly the
value the same operation returns on the underlying socket, and leave
the socket in exactly the state the underlying operation leaves it in:
pure delegation, with no buffering, transformation or framing. -/
theorem torStream_io_pure_delegation {σ : Type} (M : SocketModel σ)
    (t : TorStream σ) (bufLen : Nat) (buf : List Nat) :
    (TorStream.read M t bufLen).2 = (M.readFn t.inner bufLen).2 ∧
    (TorStream.read M t bufLen).1.inner = (M.readFn t.inner bufLen).1 ∧
    (TorStream.write M t buf).2 = (M.writeFn t.inner buf).2 ∧
    (TorStream.write M t buf).1.inner = (M.writeFn t.inner buf).1 ∧
    (TorStream.flush M t).2 = (M.flushFn t.inner).2 ∧
    (TorStream.flush M t).1.inner = (M.flushFn t.inner).1 := by
  refine ⟨rfl, rfl, rfl, rfl, rfl, rfl⟩

/-- C2: `TorStream::connect destination` returns exactly the result of
`TorStream::connect_with_address TOR_PROXY destination`, for every
engine and destination. -/
theorem connect_eq_connect_with_default {σ : Type}
    (engine : SocketAddr → TargetAddr → Except IOError (Socks5Stream σ))
    (destination : TargetAddr) :
    TorStream.connect engine destination =
      TorStream.connect_with_address engine TOR_PROXY destination := by
  rfl

/-- C3: the default proxy address `TOR_PROXY` is the IPv4 loopback
address `127.0.0.1` on port 9050; being a constant definition, every
read of it yields this same value. -/
theorem tor_proxy_is_loopback_9050 :
    TOR_PROXY = SocketAddr.v4 ⟨Ipv4Addr.LOCALHOST, 9050⟩ ∧
    Ipv4Addr.LOCALHOST = ⟨127, 0, 0, 1⟩ ∧
    ∀ x : SocketAddr, x = TOR_PROXY →
      x = SocketAddr.v4 ⟨⟨127, 0, 0, 1⟩, 9050⟩ := by
  refine ⟨rfl, rfl, ?_⟩
  intro x hx
  simpa [TOR_PROXY, Ipv4Addr.LOCALHOST] using hx

/-- C3 witness: the theorem evaluated at the concrete read
`x := TOR_PROXY`. -/
theorem tor_proxy_is_loopback_9050_witness :
    TOR_PROXY = SocketAddr.v4 ⟨⟨127, 0, 0, 1⟩, 9050⟩ :=
  tor_proxy_is_loopback_9050.2.2 TOR_PROXY rfl

/-- C4: a connect operation either fully succeeds — returning a
`TorStream` wrapping exactly the socket the engine produced — or fully
fails, returning the SOCKS engine's error unmodified; and `connect` is
`connect_with_address` at the default proxy, so the same dichotomy
covers both operations. No partially constructed stream exists and no
error is transformed or recovered. -/
theorem connect_atomic_success_or_engine_error {σ : Type}
    (engine : SocketAddr → TargetAddr → Except IOError (Socks5Stream σ))
    (proxy : SocketAddr) (dest : TargetAddr) :
    ((∃ s5, engine proxy dest = Except.ok s5 ∧
        TorStream.connect_with_address engine proxy dest =
          Except.ok (TorStream.mk s5.socket)) ∨
      (∃ e, engine proxy dest = Except.error e ∧
        TorStream.connect_with_address engine proxy dest =
          Except.error e)) ∧
    TorStream.connect engine dest =
      TorStream.connect_with_address engine TOR_PROXY dest := by
  constructor
  · cases h : engine proxy dest with
    | ok s5 =>
      exact Or.inl ⟨s5, rfl,
        by simp [TorStream.connect_with_address, h, Except.map,
          Socks5Stream.into_inner]⟩
    | error e =>
      exact Or.inr ⟨e, rfl,
        by simp [TorStream.connect_with_address, h, Except.map]⟩
  · rfl

/-- C5: `unwrap` consumes the wrapper and returns exactly the wrapped
socket, and any sequence of read/write/flush operations performed
through the wrapper yields exactly the results, and the same final
socket state, as the sequence performed directly on the unwrapped raw
socket. -/
theorem unwrap_facade_transparency {σ : Type} (M : SocketModel σ)
    (t : TorStream σ) (ops : List SockOp) :
    TorStream.unwrap t = t.inner ∧
    (runWrapped M t ops).2 = (runRaw M (TorStream.unwrap t) ops).2 ∧
    (runWrapped M t ops).1.inner = (runRaw M (TorStream.unwrap t) ops).1 := by
  refine ⟨rfl, ?_⟩
  induction ops generalizing t with
  | nil => exact ⟨rfl, rfl⟩
  | cons op ops ih =>
    cases op with
    | read n =>
      have h := ih (TorStream.mk (M.readFn t.inner n).1)
      exact ⟨by simp [runWrapped, runRaw, TorStream.read, TorStream.unwrap,
          h.1, h.2],
        by simp [runWrapped, runRaw, TorStream.read, TorStream.unwrap, h.2]⟩
    | write data =>
      have h := ih (TorStream.mk (M.writeFn t.inner data).1)
      exact ⟨by simp [runWrapped, runRaw, TorStream.write, TorStream.unwrap,
          h.1, h.2],
        by simp [runWrapped, runRaw, TorStream.write, TorStream.unwrap, h.2]⟩
    | flush =>
      have h := ih (TorStream.mk (M.flushFn t.inner).1)
      exact ⟨by simp [runWrapped, runRaw, TorStream.flush, TorStream.unwrap,
          h.1, h.2],
        by simp [runWrapped, runRaw, TorStream.flush, TorStream.unwrap, h.2]⟩

/-- C6 counterexample: with no process listening anywhere, connecting
to a destination whose host is 256 bytes long fails with the
invalid-input (encoding-failure) error kind, not connection-refused —
so the claim, quantified over every destination, does not hold. -/
theorem connect_refused_counterexample :
    deadEnv.listening TOR_PROXY = false ∧
    TorStream.connect_with_address (specSocksConnect deadEnv) TOR_PROXY
        (TargetAddr.domain host256 80) =
      Except.error ⟨IOErrorKind.invalidInput, "domain name too long"⟩ ∧
    IOErrorKind.invalidInput ≠ IOErrorKind.connectionRefused :=
  ⟨rfl, rfl, by decide⟩

/-- C6 (amended): for every destination that the SOCKS engine can
encode into the wire format (host at most 255 bytes), connecting —
via `connect` or `connect_with_address` — when no process listens on
the proxy address fails with exactly the connection-refused error
kind. -/
theorem connect_no_listener_refused {σ : Type} (env : NetEnv σ)
    (proxy : SocketAddr) (dest : TargetAddr) (bytes : List Nat)
    (henc : encodeTarget dest = Except.ok bytes) :
    (env.listening proxy = false →
      TorStream.connect_with_address (specSocksConnect env) proxy dest =
        Except.error ⟨IOErrorKind.connectionRefused, "Connection refused"⟩) ∧
    (env.listening TOR_PROXY = false →
      TorStream.connect (specSocksConnect env) dest =
        Except.error ⟨IOErrorKind.connectionRefused, "Connection refused"⟩) := by
  constructor <;> intro hl <;>
    simp [TorStream.connect, TorStream.connect_with_address,
      specSocksConnect, henc, hl, Except.map]

/-- C6 witness: the amended theorem at a 255-byte host and the
environment with no listener. -/
theorem connect_no_listener_refused_witness :
    encodeTarget (TargetAddr.domain host255 80) =
        Except.ok ([3, 255] ++ host255 ++ portBytes 80) ∧
    deadEnv.listening TOR_PROXY = false ∧
    TorStream.connect (specSocksConnect deadEnv)
        (TargetAddr.domain host255 80) =
      Except.error ⟨IOErrorKind.connectionRefused, "Connection refused"⟩ :=
  ⟨rfl, rfl,
    (connect_no_listener_refused deadEnv TOR_PROXY
      (TargetAddr.domain host255 80)
      ([3, 255] ++ host255 ++ portBytes 80) rfl).2 rfl⟩

/-- C7: a destination host of exactly 255 bytes is accepted by the
SOCKS5 encoding — the connect operations proceed to network I/O and
their result is exactly the environment's outcome — while a host of
256 bytes is rejected with the encoding-failure (invalid-input) error
for every environment and proxy; the independence of that rejection
from the environment shows it happens before any network I/O. -/
theorem connect_host_length_boundary {σ : Type} (env : NetEnv σ)
    (proxy : SocketAddr) (host1 host2 : List Nat) (port : Nat)
    (h1 : host1.length = 255) (h2 : host2.length = 256) :
    (∃ bs, encodeTarget (TargetAddr.domain host1 port) = Except.ok bs) ∧
    TorStream.connect_with_address (specSocksConnect env) proxy
        (TargetAddr.domain host1 port) =
      (if env.listening proxy then
        (env.handshake proxy (TargetAddr.domain host1 port)).map
          (fun s => TorStream.mk s)
      else
        Except.error ⟨IOErrorKind.connectionRefused,
          "Connection refused"⟩) ∧
    TorStream.connect_with_address (specSocksConnect env) proxy
        (TargetAddr.domain host2 port) =
      Except.error ⟨IOErrorKind.invalidInput, "domain name too long"⟩ ∧
    TorStream.connect (specSocksConnect env)
        (TargetAddr.domain host2 port) =
      Except.error ⟨IOErrorKind.invalidInput, "domain name too long"⟩ := by
  have he1 : encodeTarget (TargetAddr.domain host1 port) =
      Except.ok ([3, host1.length] ++ host1 ++ portBytes port) := by
    simp [encodeTarget, h1]
  have he2 : encodeTarget (TargetAddr.domain host2 port) =
      Except.error ⟨IOErrorKind.invalidInput, "domain name too long"⟩ := by
    simp [encodeTarget, h2]
  refine ⟨⟨_, he1⟩, ?_, ?_, ?_⟩
  · cases hl : env.listening proxy with
    | false =>
      simp [TorStream.connect_with_address, specSocksConnect, he1, hl,
        Except.map]
    | true =>
      cases hh : env.handshake proxy (TargetAddr.domain host1 port) with
      | ok s =>
        simp [TorStream.connect_with_address, specSocksConnect, he1, hl,
          hh, Except.map, Socks5Stream.into_inner]
      | error e =>
        simp [TorStream.connect_with_address, specSocksConnect, he1, hl,
          hh, Except.map]
  · simp [TorStream.connect_with_address, specSocksConnect, he2,
      Except.map]
  · simp [TorStream.connect, specSocksConnect, he2, Except.map]

/-- C7 witness: the boundary theorem at the concrete 255- and 256-byte
hosts, in the all-listening environment. -/
theorem connect_host_length_boundary_witness :
    host255.length = 255 ∧ host256.length = 256 ∧
    TorStream.connect_with_address (specSocksConnect liveEnv) TOR_PROXY
        (TargetAddr.domain host256 80) =
      Except.error ⟨IOErrorKind.invalidInput, "domain name too long"⟩ :=
  ⟨rfl, rfl,
    (connect_host_length_boundary liveEnv TOR_PROXY host255 host256 80
      rfl rfl).2.2.1⟩

/-- C8: a `TorStream` only arises from a successful connect: whenever
`connect_with_address` (and hence `connect`, which equals it at
`TOR_PROXY`) returns a stream, the SOCKS engine returned success, the
stream wraps exactly the single socket of that engine result, and any
property the engine guarantees of the sockets it hands out — such as
"the SOCKS5 handshake has completed", the spec's trusted black-box
contract — holds of the wrapped socket. There is no constructor of an
intermediate "connecting" state. -/
theorem torStream_implies_completed_handshake {σ : Type} (P : σ → Prop)
    (engine : SocketAddr → TargetAddr → Except IOError (Socks5Stream σ))
    (proxy : SocketAddr) (dest : TargetAddr) (t : TorStream σ)
    (hengine : ∀ p d s5, engine p d = Except.ok s5 → P s5.socket)
    (hok : TorStream.connect_with_address engine proxy dest =
      Except.ok t) :
    P t.inner ∧ ∃ s5, engine proxy dest = Except.ok s5 ∧
      t = TorStream.mk s5.socket := by
  unfold TorStream.connect_with_address at hok
  cases h : engine proxy dest with
  | ok s5 =>
    rw [h] at hok
    simp only [Except.map, Except.ok.injEq] at hok
    subst hok
    exact ⟨hengine proxy dest s5 h, s5, rfl, rfl⟩
  | error e =>
    rw [h] at hok
    exact Except.noConfusion hok

/-- C8 witness: in the all-listening environment the connect returns
the stream wrapping a handshake-completed socket. -/
theorem torStream_implies_completed_handshake_witness :
    TorStream.connect_with_address (specSocksConnect liveEnv) TOR_PROXY
        (TargetAddr.domain [97] 80) = Except.ok (TorStream.mk true) ∧
    (TorStream.mk true : TorStream Bool).inner = true :=
  ⟨rfl,
    (torStream_implies_completed_handshake (fun s => s = true)
      (specSocksConnect liveEnv) TOR_PROXY (TargetAddr.domain [97] 80)
      (TorStream.mk true)
      (by
        intro p d s5 h
        unfold specSocksConnect at h
        cases he : encodeTarget d with
        | error e => rw [he] at h; exact Except.noConfusion h
        | ok bs =>
          rw [he] at h
          have h2 : Except.ok (Socks5Stream.mk true) = Except.ok s5 := h
          injection h2 with h3
          rw [← h3])
      rfl).1⟩

/-- C9: `get_ref` and `get_mut` hand out the owned socket by
reference: each yields exactly the wrapped socket, neither consumes
the wrapper (they are functions of the unchanged value), writing the
borrowed value back through the mutable borrow leaves the `TorStream`
exactly as it was, and writing any value through it updates exactly
the socket field. -/
theorem get_ref_get_mut_frame {σ : Type} (t : TorStream σ) :
    TorStream.get_ref t = t.inner ∧
    (TorStream.get_mut t).1 = t.inner ∧
    (TorStream.get_mut t).2 (TorStream.get_mut t).1 = t ∧
    ∀ s, ((TorStream.get_mut t).2 s).inner = s :=
  ⟨rfl, rfl, rfl, fun _ => rfl⟩

/-- C10: `get_ref`, `get_mut` and `unwrap` all denote the one socket
the wrapper owns, the wrapper holds no state besides that socket
(every `TorStream` is exactly the wrap of its `unwrap`), and all three
accessors are total Lean functions — defined, without failure, on
every `TorStream`. -/
theorem accessors_denote_same_socket {σ : Type} (t : TorStream σ) :
    TorStream.get_ref t = TorStream.unwrap t ∧
    (TorStream.get_mut t).1 = TorStream.unwrap t ∧
    t = TorStream.mk (TorStream.unwrap t) :=
  ⟨rfl, rfl, rfl⟩
